import Mathlib

/-!
Shallow embedding of the QR attendance scanner:
  - `qr_scanner.py` (class `QRScanner`): dedup gate, two-phase remote protocol
    (record then validate), logging, sounds, display state.
  - `lector_qr.py`: local rejection filter `es_codigo_rechazado`, serial
    actuator startup and per-detection actuator write.

Remote HTTP interactions are modelled by an oracle value of type `HttpResp`
passed into each call site: it describes what the network returned (a parsed
200 body, a non-200 status, a timeout, a connection error, or any other
exception such as a malformed JSON body). Side effects (remote calls, log
lines, sounds, serial writes) are collected in an ordered trace of `Effect`
values, one constructor per source site.
-/

/-- Outcome of one HTTP request as seen by the Python `requests` call site.
`ok` means status 200 and the body parsed by `response.json()`;
`status` is any non-200 status (with `response.text`);
`timeout` is `requests.exceptions.Timeout` (carrying `str(e)`);
`connError` is `requests.exceptions.ConnectionError` (carrying `str(e)`);
`exn` is any other exception, including a malformed body raised by
`response.json()` (carrying `str(e)`). -/
inductive HttpResp (α : Type) where
  | ok (body : α)
  | status (code : Nat) (text : String)
  | timeout (es : String)
  | connError (es : String)
  | exn (es : String)
deriving DecidableEq, Repr

/-- Observable side effects, one constructor per source site.
`callRecord`/`callValidate` are the two remote requests;
`log...` constructors are the `logging.info`/`logging.error` calls of
`qr_scanner.py` (each appends one line to the log file handler);
`sound` is a `play_sound` invocation; `serialWrite` is `esp32.write`
in `lector_qr.py`. -/
inductive Effect where
  | callRecord (token : String)
  | callValidate (token : String)
  | serialWrite (b : Char)
  | logErrApiStatus (code : Nat)
  | logErrTimeout
  | logErrConn
  | logErrValidando (e : String)
  | logErrRegistroStatus (code : Nat) (text : String)
  | logErrRegistroExn (e : String)
  | logTokenEscaneado (tok8 : String)
  | logErrAlRegistrar (msg : String)
  | logPrimeraAsistencia (tok8 : String)
  | logAsistenciaAdicional (tok8 : String)
  | logResultadoFinal (estado : String) (msg : String)
  | sound (kind : String)
deriving DecidableEq, Repr

/-- True for the `Effect` constructors that append a line to the log file
(every `logging.info` / `logging.error` call). -/
def Effect.isLogAppend : Effect → Bool
  | .logErrApiStatus _ => true
  | .logErrTimeout => true
  | .logErrConn => true
  | .logErrValidando _ => true
  | .logErrRegistroStatus _ _ => true
  | .logErrRegistroExn _ => true
  | .logTokenEscaneado _ => true
  | .logErrAlRegistrar _ => true
  | .logPrimeraAsistencia _ => true
  | .logAsistenciaAdicional _ => true
  | .logResultadoFinal _ _ => true
  | _ => false

/-- True exactly for the `logging.info` line `Token escaneado: ...` emitted
once at the top of `process_token` for every admitted token. -/
def Effect.isTokenEscaneado : Effect → Bool
  | .logTokenEscaneado _ => true
  | _ => false

/-- The `token_data` JSON object. The scanner itself only reads its key
`estado` (via `token_data.get("estado", "")`); the other keys are only used
for display formatting, so they are not modelled. `estado := none` models a
missing key. A present-but-empty dict is falsy in Python exactly like a
missing one, and both yield the same default, so `Option TokenData` with
this one field is faithful for every read the scanner performs. -/
structure TokenData where
  estado : Option String
deriving DecidableEq, Repr

/-- Parsed JSON body of a 200 response of `GET /tokens/.../validate`.
Each field is `Option` because the scanner reads every key with
`data.get(key, default)`. -/
structure ValidateJson where
  valid : Option Bool
  message : Option String
  token_data : Option TokenData
  warnings : Option (List String)
  first_scan : Option Bool
  previous_scans : Option (List String)
deriving DecidableEq, Repr

/-- Parsed JSON body of a 200 response of `POST /tokens/.../record_scan`,
and also the shape of the dicts built locally by `record_scan_api` on
failure. Fields are `Option` because they are read with `.get`. -/
structure RecordJson where
  success : Option Bool
  is_first_scan : Option Bool
  message : Option String
deriving DecidableEq, Repr

/-- The `TokenValidation` dataclass of `qr_scanner.py` with its dataclass
defaults (`token_data=None`, `warnings=None`, `estado=""`,
`first_scan=None`, `previous_scans=None`). -/
structure TokenValidation where
  valid : Bool
  message : String
  token_data : Option TokenData := none
  warnings : Option (List String) := none
  estado : String := ""
  first_scan : Option Bool := none
  previous_scans : Option (List String) := none
deriving DecidableEq, Repr

/-- The mutable fields of `QRScanner` that `process_token` reads or writes:
the single dedup slot (`last_scanned_token`, `last_scan_time`) and the
cooldown. Time is modelled as `Int` (the code uses `time.time()` seconds). -/
structure ScannerState where
  last_scanned_token : String
  last_scan_time : Int
  scan_cooldown : Int
deriving DecidableEq, Repr

/-- The state set up by `QRScanner.__init__`: empty last token, zero last
scan time, cooldown 3. -/
def ScannerState.init : ScannerState :=
  { last_scanned_token := "", last_scan_time := 0, scan_cooldown := 3 }

/-- `QRScanner.validate_token_api`. Takes the oracle describing the HTTP
outcome and returns the `TokenValidation` together with the trace of
effects (the request itself, then any error log). Total: every failure is
caught inside the function and normalised, mirroring the try/except.

On 200: fields are read with `data.get` and its defaults; `estado` is
filled from `token_data.get("estado", "")` when `token_data` is truthy.
On non-200: `valid=False`, message `Error de API: <code>`, `estado="ERROR"`.
On timeout / connection error / other exception: `valid=False`, the
corresponding fixed or formatted message, `estado="ERROR"`. -/
def validate_token_api (token : String) (resp : HttpResp ValidateJson) :
    TokenValidation × List Effect :=
  match resp with
  | .ok data =>
      let v : TokenValidation :=
        { valid := data.valid.getD false
          message := data.message.getD ""
          token_data := data.token_data
          warnings := some (data.warnings.getD [])
          estado :=
            match data.token_data with
            | some td => td.estado.getD ""
            | none => ""
          first_scan := some (data.first_scan.getD false)
          previous_scans := some (data.previous_scans.getD []) }
      (v, [Effect.callValidate token])
  | .status code _ =>
      ({ valid := false, message := "Error de API: " ++ toString code,
         estado := "ERROR" },
       [Effect.callValidate token, Effect.logErrApiStatus code])
  | .timeout _ =>
      ({ valid := false, message := "Timeout: No se pudo conectar con el servidor",
         estado := "ERROR" },
       [Effect.callValidate token, Effect.logErrTimeout])
  | .connError _ =>
      ({ valid := false, message := "Error: No se pudo conectar con el servidor",
         estado := "ERROR" },
       [Effect.callValidate token, Effect.logErrConn])
  | .exn e =>
      ({ valid := false, message := "Error inesperado: " ++ e,
         estado := "ERROR" },
       [Effect.callValidate token, Effect.logErrValidando e])

/-- `QRScanner.record_scan_api`. On 200 the parsed body is returned as-is;
on a non-200 status it returns `{"success": False, "message": "Error API: <code>"}`
after logging; every exception (timeout, connection error, malformed body,
anything else) is caught by the single generic `except` and returns
`{"success": False, "message": "Error: <str(e)>"}` after logging. -/
def record_scan_api (token : String) (resp : HttpResp RecordJson) :
    RecordJson × List Effect :=
  match resp with
  | .ok data => (data, [Effect.callRecord token])
  | .status code text =>
      ({ success := some false, is_first_scan := none,
         message := some ("Error API: " ++ toString code) },
       [Effect.callRecord token, Effect.logErrRegistroStatus code text])
  | .timeout es =>
      ({ success := some false, is_first_scan := none,
         message := some ("Error: " ++ es) },
       [Effect.callRecord token, Effect.logErrRegistroExn es])
  | .connError es =>
      ({ success := some false, is_first_scan := none,
         message := some ("Error: " ++ es) },
       [Effect.callRecord token, Effect.logErrRegistroExn es])
  | .exn es =>
      ({ success := some false, is_first_scan := none,
         message := some ("Error: " ++ es) },
       [Effect.callRecord token, Effect.logErrRegistroExn es])

/-- Python `str.upper` for the ASCII payloads the filter compares against:
upper-case every character. -/
def pyUpper (s : String) : String := String.mk (s.data.map Char.toUpper)

/-- Python `str.lower` for the ASCII payloads the filter compares against:
lower-case every character. -/
def pyLower (s : String) : String := String.mk (s.data.map Char.toLower)

/-- Python `str.strip()` with no argument: drop whitespace characters from
both ends. -/
def pyStrip (s : String) : String :=
  String.mk
    (((s.data.dropWhile Char.isWhitespace).reverse.dropWhile
        Char.isWhitespace).reverse)

/-- Python `s.startswith(p)`: the characters of `p` are a prefix of the
characters of `s`. -/
def pyStartswith (s p : String) : Bool := p.data.isPrefixOf s.data

/-- Python slicing `s[:8]`, character based. -/
def pyTake8 (s : String) : String := String.mk (s.data.take 8)

/-- Python `str(x)` applied to the result of `dict.get("message")`
(which may be `None`), as used by the `logging.error` f-string in the
record-failure branch of `process_token`. -/
def pyStrOpt : Option String → String
  | some s => s
  | none => "None"

/-- `QRScanner.process_token`. Arguments beyond the scanner state and the
token: `current_time` is `time.time()` at entry, `recordResp` and
`validateResp` are the network oracles for the two calls, `now` is
`datetime.now().strftime("%H:%M:%S")` at processing time. Returns the
updated state, the `Optional[TokenValidation]` return value, and the
ordered effect trace.

Control flow mirrors the source:
1. cooldown check on the single dedup slot: same token within
   `scan_cooldown` returns `None` untouched;
2. otherwise overwrite the slot, log the token, call `record_scan_api`;
3. if the record result is not a success, log, play the error sound, and
   return an `ERROR_ASISTENCIA` result without calling validate;
4. otherwise call `validate_token_api`; if `valid`, rewrite message and
   estado from the record call flag `is_first_scan`; else play the error
   sound; finally log the final result. -/
def process_token (st : ScannerState) (token : String) (current_time : Int)
    (recordResp : HttpResp RecordJson) (validateResp : HttpResp ValidateJson)
    (now : String) :
    ScannerState × Option TokenValidation × List Effect :=
  if token = st.last_scanned_token ∧
      current_time - st.last_scan_time < st.scan_cooldown then
    (st, none, [])
  else
    let st1 : ScannerState :=
      { st with last_scanned_token := token, last_scan_time := current_time }
    let t0 : List Effect := [Effect.logTokenEscaneado (pyTake8 token)]
    let rec1 := record_scan_api token recordResp
    let srr := rec1.1
    if (srr.success.getD false) = false then
      (st1,
       some { valid := false
              message := srr.message.getD "Error al registrar asistencia"
              estado := "ERROR_ASISTENCIA"
              first_scan := some false
              previous_scans := some [] },
       t0 ++ rec1.2 ++
         [Effect.logErrAlRegistrar (pyStrOpt srr.message),
          Effect.sound "error"])
    else
      let val1 := validate_token_api token validateResp
      let validation := val1.1
      if validation.valid = true then
        let firstFlag := srr.is_first_scan.getD false
        let msg :=
          if firstFlag then "Primer registro de asistencia: " ++ now
          else "Registro de asistencia adicional: " ++ now
        let tr3 : List Effect :=
          if firstFlag then
            [Effect.logPrimeraAsistencia (pyTake8 token), Effect.sound "success"]
          else
            [Effect.logAsistenciaAdicional (pyTake8 token), Effect.sound "warning"]
        let validation2 :=
          { validation with message := msg, estado := "ASISTENCIA_REGISTRADA" }
        (st1, some validation2,
         t0 ++ rec1.2 ++ val1.2 ++ tr3 ++
           [Effect.logResultadoFinal validation2.estado validation2.message])
      else
        (st1, some validation,
         t0 ++ rec1.2 ++ val1.2 ++
           [Effect.sound "error",
            Effect.logResultadoFinal validation.estado validation.message])

/-- Python `needle in hay` on lists of characters: the needle occurs as a
contiguous run somewhere in the haystack. -/
def containsSubList (needle : List Char) : List Char → Bool
  | [] => needle.isEmpty
  | c :: t => needle.isPrefixOf (c :: t) || containsSubList needle t

/-- Python `needle in hay` on strings. -/
def containsSub (needle hay : String) : Bool :=
  containsSubList needle.toList hay.toList

/-- The image extension literals of `lector_qr.py`. -/
def extensiones_imagen : List String :=
  [".jpg", ".jpeg", ".png", ".gif", ".bmp", ".webp"]

/-- `es_codigo_rechazado` from `lector_qr.py`: reject when the stripped,
upper-cased payload starts with `WIFI:`, or when any of the extension
literals occurs in the lower-cased payload. -/
def es_codigo_rechazado (data : String) : Bool :=
  if pyStartswith (pyUpper (pyStrip data)) "WIFI:" then true
  else extensiones_imagen.any (fun ext => containsSub ext (pyLower data))

/-- Outcome of the serial-port startup block of `lector_qr.py`
(lines 20 to 26): `connected` when `serial.Serial(...)` succeeds,
`exited` when the `except` branch runs `exit()` and the program stops. -/
inductive SerialInit where
  | connected
  | exited
deriving DecidableEq, Repr

/-- The startup try/except of `lector_qr.py`: on success the port handle is
kept; on any failure the script prints an error and calls `exit()`,
terminating the program before the capture loop starts. -/
def esp32_startup (openOk : Bool) : SerialInit :=
  if openOk then SerialInit.connected else SerialInit.exited

/-- The per-detection body of the `lector_qr.py` capture loop (lines 40
to 47): apply the local filter and write one byte to the serial port,
`'0'` when rejected, `'1'` when accepted. The script performs no remote
calls anywhere. -/
def lector_frame_step (data : String) : List Effect :=
  if es_codigo_rechazado data then [Effect.serialWrite '0']
  else [Effect.serialWrite '1']

/-- True when the record phase reported success: status 200 and a body
whose `success` key is truthy (the `scan_record_result.get("success")`
check in `process_token`). -/
def recordReportedSuccess (token : String) (resp : HttpResp RecordJson) : Bool :=
  ((record_scan_api token resp).1.success.getD false)

/-- True only for the `ok` (parsed 200) outcome of a request. -/
def HttpResp.isOk : HttpResp α → Bool
  | .ok _ => true
  | _ => false

/-- The executable substring test agrees with the mathematical infix
relation on character lists. -/
theorem containsSubList_iff (needle hay : List Char) :
    containsSubList needle hay = true ↔ needle <:+: hay := by
  induction hay with
  | nil =>
      simp [containsSubList, List.infix_nil, List.isEmpty_iff]
  | cons c t ih =>
      simp [containsSubList, List.isPrefixOf_iff_prefix, ih,
        List.infix_cons_iff]

/-- C3: the local policy filter returns true (reject) if and only if the
whitespace-trimmed, case-folded payload starts with the prefix `WIFI:`, or
the case-folded payload contains one of the substrings `.jpg`, `.jpeg`,
`.png`, `.gif`, `.bmp`, `.webp` anywhere; every other payload passes
through. -/
theorem C3_local_filter_iff (data : String) :
    es_codigo_rechazado data = true ↔
      ("WIFI:".data <+: (pyUpper (pyStrip data)).data ∨
       ∃ ext ∈ extensiones_imagen, ext.data <:+: (pyLower data).data) := by
  unfold es_codigo_rechazado
  split
  case isTrue h =>
    simp only [true_iff]
    exact Or.inl (by simpa [pyStartswith, List.isPrefixOf_iff_prefix] using h)
  case isFalse h =>
    rw [List.any_eq_true]
    constructor
    · rintro ⟨ext, hmem, hc⟩
      exact Or.inr ⟨ext, hmem,
        (containsSubList_iff _ _).1 (by simpa [containsSub] using hc)⟩
    · rintro (hw | ⟨ext, hmem, hinf⟩)
      · exact absurd
          (by simpa [pyStartswith, List.isPrefixOf_iff_prefix] using hw) h
      · exact ⟨ext, hmem, by
          simpa [containsSub] using (containsSubList_iff _ _).2 hinf⟩

/-- C5: whenever the validate-phase request does not come back as a parsed
200 response (non-2xx status, timeout, connection error, or any other
exception), `validate_token_api` returns `valid=false` with
`estado="ERROR"`; the function is total, so no transport exception escapes
and every failure path yields a fully populated `TokenValidation`. -/
theorem C5_validate_failure_normalised (token : String)
    (resp : HttpResp ValidateJson) (h : resp.isOk = false) :
    (validate_token_api token resp).1.valid = false ∧
    (validate_token_api token resp).1.estado = "ERROR" := by
  cases resp <;> simp_all [validate_token_api, HttpResp.isOk]

/-- Witness for C5 at the timeout outcome. -/
theorem C5_witness :
    (validate_token_api "EMP-001" (HttpResp.timeout "t")).1.valid = false ∧
    (validate_token_api "EMP-001" (HttpResp.timeout "t")).1.estado = "ERROR" :=
  C5_validate_failure_normalised "EMP-001" (HttpResp.timeout "t") (by decide)

/-- C10: a scan dropped by the dedup gate (same token as the stored slot,
within the cooldown) returns `None`, leaves the scanner state unchanged,
and performs no effect at all: no remote call, no log line, no sound. -/
theorem C10_dropped_scan_is_noop (st : ScannerState) (token : String)
    (t : Int) (rr : HttpResp RecordJson) (vr : HttpResp ValidateJson)
    (now : String)
    (h : token = st.last_scanned_token ∧
      t - st.last_scan_time < st.scan_cooldown) :
    process_token st token t rr vr now = (st, none, []) := by
  simp [process_token, h]

/-- Witness for C10: the same token one time unit after the last scan is
dropped without any effect. -/
theorem C10_witness :
    process_token
      { last_scanned_token := "EMP-001", last_scan_time := 10,
        scan_cooldown := 3 } "EMP-001" 11 (HttpResp.status 500 "")
      (HttpResp.timeout "t") "10:00:00" =
    ({ last_scanned_token := "EMP-001", last_scan_time := 10,
       scan_cooldown := 3 }, none, []) :=
  C10_dropped_scan_is_noop _ "EMP-001" 11 _ _ "10:00:00" (by decide)

/-- Counterexample to C9: when the serial port fails to open at startup,
`lector_qr.py` prints an error and calls `exit()`, terminating the program
before the capture loop ever starts; it does not continue as a no-op
adapter, refuting the claim at the concrete input `openOk = false`. -/
theorem C9_counterexample : esp32_startup false = SerialInit.exited := by
  decide

/-- C9 as amended: if the actuator channel fails to open at startup the
program aborts via `exit()`; when it opens, the pipeline proceeds with the
connected channel. -/
theorem C9_amended_abort_on_failure :
    esp32_startup false = SerialInit.exited ∧
    esp32_startup true = SerialInit.connected := by
  decide

/-- Structural helper: an admitted scan always returns `some` result, and
the state after the call holds the new token and time with the cooldown
unchanged. -/
theorem process_token_admitted (st : ScannerState) (token : String) (t : Int)
    (rr : HttpResp RecordJson) (vr : HttpResp ValidateJson) (now : String)
    (h : ¬(token = st.last_scanned_token ∧
      t - st.last_scan_time < st.scan_cooldown)) :
    ∃ v trace, process_token st token t rr vr now =
      ({ st with last_scanned_token := token, last_scan_time := t },
       some v, trace) := by
  simp only [process_token, h, if_false, ite_false]
  split
  · exact ⟨_, _, rfl⟩
  · split
    · exact ⟨_, _, rfl⟩
    · exact ⟨_, _, rfl⟩

/-- C2: `process_token` drops a scan (returns `None`) if and only if the
token equals the stored `last_scanned_token` and the elapsed time since
`last_scan_time` is strictly below the cooldown; when the scan is
admitted, the single slot is unconditionally overwritten with the new
token and time, whatever it held before; the cooldown set up by
`__init__` is 3. -/
theorem C2_dedup_admit_iff (st : ScannerState) (token : String) (t : Int)
    (rr : HttpResp RecordJson) (vr : HttpResp ValidateJson) (now : String) :
    ((process_token st token t rr vr now).2.1 = none ↔
      (token = st.last_scanned_token ∧
        t - st.last_scan_time < st.scan_cooldown)) ∧
    ((process_token st token t rr vr now).2.1 ≠ none →
      (process_token st token t rr vr now).1.last_scanned_token = token ∧
      (process_token st token t rr vr now).1.last_scan_time = t) ∧
    ScannerState.init.scan_cooldown = 3 := by
  by_cases h : token = st.last_scanned_token ∧
      t - st.last_scan_time < st.scan_cooldown
  · refine ⟨?_, ?_, rfl⟩ <;> simp [process_token, h]
  · obtain ⟨v, tr, heq⟩ := process_token_admitted st token t rr vr now h
    rw [heq]
    exact ⟨by simpa using h, fun _ => ⟨rfl, rfl⟩, rfl⟩

/-- Witness for C2: a fresh scanner admits token `EMP-001` at time 5 and
stores it in the slot; the same token at time 6 is then dropped. -/
theorem C2_witness :
    ((process_token ScannerState.init "EMP-001" 5 (HttpResp.status 500 "")
        (HttpResp.timeout "t") "10:00:00").2.1 ≠ none →
      (process_token ScannerState.init "EMP-001" 5 (HttpResp.status 500 "")
        (HttpResp.timeout "t") "10:00:00").1.last_scanned_token = "EMP-001" ∧
      (process_token ScannerState.init "EMP-001" 5 (HttpResp.status 500 "")
        (HttpResp.timeout "t") "10:00:00").1.last_scan_time = 5) ∧
    ((process_token
        { last_scanned_token := "EMP-001", last_scan_time := 5,
          scan_cooldown := 3 } "EMP-001" 6 (HttpResp.status 500 "")
        (HttpResp.timeout "t") "10:00:00").2.1 = none) :=
  ⟨(C2_dedup_admit_iff ScannerState.init "EMP-001" 5 (HttpResp.status 500 "")
      (HttpResp.timeout "t") "10:00:00").2.1,
   (C2_dedup_admit_iff
      { last_scanned_token := "EMP-001", last_scan_time := 5,
        scan_cooldown := 3 } "EMP-001" 6 (HttpResp.status 500 "")
      (HttpResp.timeout "t") "10:00:00").1.2 (by decide)⟩

/-- C7: with a single dedup slot, an interleaved different payload resets
tracking: in a rapid A, B, A sequence with A distinct from B, every one of
the three scans is admitted (none returns `None`), even when the two A
scans lie inside the nominal cooldown window of each other. -/
theorem C7_interleaved_defeats_cooldown (st : ScannerState) (A B : String)
    (t1 t2 t3 : Int) (rr1 rr2 rr3 : HttpResp RecordJson)
    (vr1 vr2 vr3 : HttpResp ValidateJson) (now1 now2 now3 : String)
    (hAB : A ≠ B)
    (h1 : ¬(A = st.last_scanned_token ∧
      t1 - st.last_scan_time < st.scan_cooldown))
    (_hcool : t3 - t1 < st.scan_cooldown) :
    (process_token st A t1 rr1 vr1 now1).2.1 ≠ none ∧
    (process_token (process_token st A t1 rr1 vr1 now1).1 B t2 rr2 vr2
        now2).2.1 ≠ none ∧
    (process_token
        (process_token (process_token st A t1 rr1 vr1 now1).1 B t2 rr2 vr2
          now2).1 A t3 rr3 vr3 now3).2.1 ≠ none := by
  obtain ⟨v1, w1, heq1⟩ := process_token_admitted st A t1 rr1 vr1 now1 h1
  have h2 : ¬(B = (process_token st A t1 rr1 vr1 now1).1.last_scanned_token ∧
      t2 - (process_token st A t1 rr1 vr1 now1).1.last_scan_time <
        (process_token st A t1 rr1 vr1 now1).1.scan_cooldown) := by
    rw [heq1]
    rintro ⟨hB, -⟩
    exact hAB hB.symm
  obtain ⟨v2, w2, heq2⟩ :=
    process_token_admitted _ B t2 rr2 vr2 now2 h2
  have h3 : ¬(A = (process_token (process_token st A t1 rr1 vr1 now1).1 B t2
        rr2 vr2 now2).1.last_scanned_token ∧
      t3 - (process_token (process_token st A t1 rr1 vr1 now1).1 B t2 rr2 vr2
        now2).1.last_scan_time <
      (process_token (process_token st A t1 rr1 vr1 now1).1 B t2 rr2 vr2
        now2).1.scan_cooldown) := by
    rw [heq2]
    rintro ⟨hA, -⟩
    exact hAB hA
  obtain ⟨v3, w3, heq3⟩ :=
    process_token_admitted _ A t3 rr3 vr3 now3 h3
  refine ⟨?_, ?_, ?_⟩
  · rw [heq1]; simp
  · rw [heq2]; simp
  · rw [heq3]; simp

/-- Witness for C7: a fresh scanner, payloads A and B, times 0, 1, 2, all
inside the cooldown of 3; all three scans are admitted. -/
theorem C7_witness :
    (process_token ScannerState.init "A" 0 (HttpResp.status 500 "")
      (HttpResp.timeout "t") "n1").2.1 ≠ none ∧
    (process_token (process_token ScannerState.init "A" 0
        (HttpResp.status 500 "") (HttpResp.timeout "t") "n1").1 "B" 1
      (HttpResp.status 500 "") (HttpResp.timeout "t") "n2").2.1 ≠ none ∧
    (process_token (process_token (process_token ScannerState.init "A" 0
        (HttpResp.status 500 "") (HttpResp.timeout "t") "n1").1 "B" 1
        (HttpResp.status 500 "") (HttpResp.timeout "t") "n2").1 "A" 2
      (HttpResp.status 500 "") (HttpResp.timeout "t") "n3").2.1 ≠ none :=
  C7_interleaved_defeats_cooldown ScannerState.init "A" "B" 0 1 2
    (HttpResp.status 500 "") (HttpResp.status 500 "") (HttpResp.status 500 "")
    (HttpResp.timeout "t") (HttpResp.timeout "t") (HttpResp.timeout "t")
    "n1" "n2" "n3" (by decide) (by decide) (by decide)

/-- The record-phase trace never contains a validate request. -/
theorem record_trace_no_validate (token e : String)
    (rr : HttpResp RecordJson) :
    Effect.callValidate e ∉ (record_scan_api token rr).2 := by
  cases rr <;> simp [record_scan_api]

/-- The validate-phase trace always starts with the validate request. -/
theorem validate_trace_has_validate (token : String)
    (vr : HttpResp ValidateJson) :
    Effect.callValidate token ∈ (validate_token_api token vr).2 := by
  cases vr <;> simp [validate_token_api]

/-- Structural helper: admitted scan whose record phase did not report
success. The whole call short-circuits: the result is the
`ERROR_ASISTENCIA` validation and the trace holds the token log, the
record-phase trace, the error log and the error sound, with no validate
request. -/
theorem process_token_record_failure (st : ScannerState) (token : String)
    (t : Int) (rr : HttpResp RecordJson) (vr : HttpResp ValidateJson)
    (now : String)
    (hadm : ¬(token = st.last_scanned_token ∧
      t - st.last_scan_time < st.scan_cooldown))
    (hs : (record_scan_api token rr).1.success.getD false = false) :
    process_token st token t rr vr now =
      ({ st with last_scanned_token := token, last_scan_time := t },
       some { valid := false
              message := (record_scan_api token rr).1.message.getD
                "Error al registrar asistencia"
              estado := "ERROR_ASISTENCIA"
              first_scan := some false
              previous_scans := some [] },
       [Effect.logTokenEscaneado (pyTake8 token)] ++
         (record_scan_api token rr).2 ++
         [Effect.logErrAlRegistrar (pyStrOpt (record_scan_api token rr).1.message),
          Effect.sound "error"]) := by
  simp only [process_token, hadm, if_false, ite_false]
  rw [if_pos hs]

/-- Structural helper: admitted scan whose record phase reported success
always issues the validate request. -/
theorem process_token_record_success_calls_validate (st : ScannerState)
    (token : String) (t : Int) (rr : HttpResp RecordJson)
    (vr : HttpResp ValidateJson) (now : String)
    (hadm : ¬(token = st.last_scanned_token ∧
      t - st.last_scan_time < st.scan_cooldown))
    (hs : (record_scan_api token rr).1.success.getD false = true) :
    Effect.callValidate token ∈ (process_token st token t rr vr now).2.2 := by
  simp only [process_token, hadm, if_false, ite_false]
  rw [if_neg (by simp [hs])]
  split <;>
    simp [List.mem_append, validate_trace_has_validate token vr]

/-- C1: for every admitted payload, the validate request is issued if and
only if the record phase reported success; when the record phase fails
(non-2xx, timeout, connection error, malformed body, or a 200 body whose
`success` field is not truthy), `process_token` short-circuits with
`estado="ERROR_ASISTENCIA"`, `valid=false`, and a message carrying the
failure cause, and validate is never called; every non-`ok` transport
outcome counts as a record failure. -/
theorem C1_record_gates_validate (st : ScannerState) (token : String)
    (t : Int) (rr : HttpResp RecordJson) (vr : HttpResp ValidateJson)
    (now : String)
    (hadm : ¬(token = st.last_scanned_token ∧
      t - st.last_scan_time < st.scan_cooldown)) :
    ((Effect.callValidate token ∈ (process_token st token t rr vr now).2.2) ↔
      recordReportedSuccess token rr = true) ∧
    (recordReportedSuccess token rr = false →
      ∃ v, (process_token st token t rr vr now).2.1 = some v ∧
        v.valid = false ∧ v.estado = "ERROR_ASISTENCIA" ∧
        v.message = ((record_scan_api token rr).1.message.getD
          "Error al registrar asistencia")) ∧
    (rr.isOk = false → recordReportedSuccess token rr = false) := by
  refine ⟨⟨?_, ?_⟩, ?_, ?_⟩
  · intro hmem
    by_contra hns
    rw [Bool.not_eq_true] at hns
    rw [process_token_record_failure st token t rr vr now hadm hns] at hmem
    simp only [List.mem_append, List.mem_singleton, List.mem_cons] at hmem
    have hrec := record_trace_no_validate token token rr
    simp only [List.mem_append, List.mem_singleton, List.mem_cons,
      List.not_mem_nil, or_false] at hmem
    rcases hmem with (h1 | h1) | (h1 | h1) <;>
      first
        | exact Effect.noConfusion h1
        | exact absurd h1 hrec
  · intro hs
    exact process_token_record_success_calls_validate st token t rr vr now
      hadm hs
  · intro hns
    rw [process_token_record_failure st token t rr vr now hadm hns]
    exact ⟨_, rfl, rfl, rfl, rfl⟩
  · intro hok
    cases rr <;> simp_all [record_scan_api, recordReportedSuccess,
      HttpResp.isOk]

/-- Sample validate-phase 200 body reporting a valid token, used by the
concrete witnesses below. -/
def sampleValidBody : ValidateJson :=
  { valid := some true, message := some "m", token_data := none,
    warnings := none, first_scan := some true, previous_scans := none }

/-- Sample record-phase 200 body reporting a successful first scan, used
by the concrete witnesses below. -/
def sampleRecordFirst : RecordJson :=
  { success := some true, is_first_scan := some true, message := some "ok" }

/-- Sample record-phase 200 body reporting a successful repeat scan, used
by the concrete witnesses below. -/
def sampleRecordRepeat : RecordJson :=
  { success := some true, is_first_scan := some false, message := some "ok" }

/-- Witness for C1 at a timeout of the record phase: validate is absent
from the trace, and the result is the `ERROR_ASISTENCIA` short-circuit. -/
theorem C1_witness :
    (¬(Effect.callValidate "EMP-001" ∈
        (process_token ScannerState.init "EMP-001" 5 (HttpResp.timeout "boom")
          (HttpResp.ok sampleValidBody) "10:00:00").2.2)) ∧
    (∃ v, (process_token ScannerState.init "EMP-001" 5
        (HttpResp.timeout "boom")
        (HttpResp.ok sampleValidBody) "10:00:00").2.1 = some v ∧
      v.valid = false ∧ v.estado = "ERROR_ASISTENCIA" ∧
      v.message = "Error: boom") := by
  have h := C1_record_gates_validate ScannerState.init "EMP-001" 5
    (HttpResp.timeout "boom") (HttpResp.ok sampleValidBody) "10:00:00"
    (by decide)
  refine ⟨fun hmem => ?_, ?_⟩
  · have := h.1.1 hmem
    simp [recordReportedSuccess, record_scan_api] at this
  · have h2 := h.2.1 (by decide)
    simpa [record_scan_api] using h2

/-- Structural helper: admitted scan, record success, validate 200 with a
truthy `valid`. The result carries `estado="ASISTENCIA_REGISTRADA"` and a
message rebuilt at processing time from the record-phase `is_first_scan`
flag. -/
theorem process_token_success_result (st : ScannerState) (token : String)
    (t : Int) (rr : HttpResp RecordJson) (vr : HttpResp ValidateJson)
    (now : String)
    (hadm : ¬(token = st.last_scanned_token ∧
      t - st.last_scan_time < st.scan_cooldown))
    (hs : (record_scan_api token rr).1.success.getD false = true)
    (hv : (validate_token_api token vr).1.valid = true) :
    (process_token st token t rr vr now).2.1 =
      some { (validate_token_api token vr).1 with
        estado := "ASISTENCIA_REGISTRADA"
        message :=
          if (record_scan_api token rr).1.is_first_scan.getD false then
            "Primer registro de asistencia: " ++ now
          else "Registro de asistencia adicional: " ++ now } := by
  simp only [process_token, hadm, if_false, ite_false]
  rw [if_neg (by simp [hs]), if_pos hv]

/-- C6: for every admitted payload where the record phase succeeds and the
validate phase returns a 200 body with `valid=true`, the final result has
`estado="ASISTENCIA_REGISTRADA"` and its message is rewritten, stamped
with the processing-time clock, as first versus additional registration
according to the record-call `is_first_scan` flag; the `first_scan` field
of the validate body (universally quantified here) plays no role in the
message. -/
theorem C6_success_message_from_record_flag (st : ScannerState)
    (token : String) (t : Int) (rb : RecordJson) (vb : ValidateJson)
    (now : String)
    (hadm : ¬(token = st.last_scanned_token ∧
      t - st.last_scan_time < st.scan_cooldown))
    (hrec : rb.success.getD false = true)
    (hval : vb.valid.getD false = true) :
    ∃ v, (process_token st token t (HttpResp.ok rb) (HttpResp.ok vb)
        now).2.1 = some v ∧
      v.estado = "ASISTENCIA_REGISTRADA" ∧
      v.message =
        (if rb.is_first_scan.getD false then
          "Primer registro de asistencia: " ++ now
        else "Registro de asistencia adicional: " ++ now) := by
  have h := process_token_success_result st token t (HttpResp.ok rb)
    (HttpResp.ok vb) now hadm
    (by simpa [record_scan_api] using hrec)
    (by simpa [validate_token_api] using hval)
  rw [h]
  exact ⟨_, rfl, rfl, by simp [record_scan_api]⟩

/-- Witness for C6: first scan at a fresh scanner; the message stamps the
processing time and references the first registration. -/
theorem C6_witness :
    ∃ v, (process_token ScannerState.init "EMP-001" 5
        (HttpResp.ok sampleRecordFirst) (HttpResp.ok sampleValidBody)
        "10:00:00").2.1 = some v ∧
      v.estado = "ASISTENCIA_REGISTRADA" ∧
      v.message = "Primer registro de asistencia: 10:00:00" := by
  have h := C6_success_message_from_record_flag ScannerState.init "EMP-001"
    5 sampleRecordFirst sampleValidBody "10:00:00" (by decide) (by decide)
    (by decide)
  simpa [sampleRecordFirst] using h

/-- Counterexample to C8: the repository has no durable audit store at
all; the only durable per-scan sink is the log file. On a concrete
admitted payload with a successful first scan, `process_token` appends
three log lines (`Token escaneado`, `Primera asistencia`,
`Resultado final`), not exactly one audit record. -/
theorem C8_counterexample :
    List.countP Effect.isLogAppend
      (process_token ScannerState.init "EMP-001" 10
        (HttpResp.ok sampleRecordFirst) (HttpResp.ok sampleValidBody)
        "10:00:00").2.2 = 3 ∧ (3 : Nat) ≠ 1 := by
  decide

/-- C8 as amended: there is no dedicated audit store; what holds is that
every payload admitted past the dedup gate appends exactly one
`Token escaneado` log entry, regardless of the outcome of the scan
(record failure, invalid token, or success); further log lines vary with
the outcome. -/
theorem C8_amended_one_scan_log (st : ScannerState) (token : String)
    (t : Int) (rr : HttpResp RecordJson) (vr : HttpResp ValidateJson)
    (now : String)
    (hadm : ¬(token = st.last_scanned_token ∧
      t - st.last_scan_time < st.scan_cooldown)) :
    List.countP Effect.isTokenEscaneado
      (process_token st token t rr vr now).2.2 = 1 := by
  have hrec : List.countP Effect.isTokenEscaneado
      (record_scan_api token rr).2 = 0 := by
    cases rr <;> simp [record_scan_api, Effect.isTokenEscaneado]
  have hval : List.countP Effect.isTokenEscaneado
      (validate_token_api token vr).2 = 0 := by
    cases vr <;> simp [validate_token_api, Effect.isTokenEscaneado]
  simp only [process_token, hadm, if_false, ite_false]
  split
  · simp [List.countP_append, hrec, Effect.isTokenEscaneado]
  · split <;> (try split) <;>
      simp [List.countP_append, hrec, hval, Effect.isTokenEscaneado]

/-- Witness for C8 as amended, at a record-phase failure: exactly one
`Token escaneado` line is appended. -/
theorem C8_witness :
    List.countP Effect.isTokenEscaneado
      (process_token ScannerState.init "EMP-001" 10 (HttpResp.status 500 "")
        (HttpResp.timeout "t") "10:00:00").2.2 = 1 :=
  C8_amended_one_scan_log ScannerState.init "EMP-001" 10
    (HttpResp.status 500 "") (HttpResp.timeout "t") "10:00:00" (by decide)

/-- Structural helper: every admitted scan issues the record request. -/
theorem process_token_calls_record (st : ScannerState) (token : String)
    (t : Int) (rr : HttpResp RecordJson) (vr : HttpResp ValidateJson)
    (now : String)
    (hadm : ¬(token = st.last_scanned_token ∧
      t - st.last_scan_time < st.scan_cooldown)) :
    Effect.callRecord token ∈ (process_token st token t rr vr now).2.2 := by
  have h : Effect.callRecord token ∈ (record_scan_api token rr).2 := by
    cases rr <;> simp [record_scan_api]
  simp only [process_token, hadm, if_false, ite_false]
  split
  · simp [List.mem_append, h]
  · split <;> (try split) <;> simp [List.mem_append, h]

/-- Counterexample to C4: the payload `WIFI:guest-net` matches the local
filter, yet `process_token` on a fresh scanner still issues the record
request and terminates in `ERROR_ASISTENCIA` (here the record phase
answers 500), not in a `REJECTED_LOCAL` state with no remote call:
`process_token` never consults the local filter. -/
theorem C4_counterexample :
    es_codigo_rechazado "WIFI:guest-net" = true ∧
    Effect.callRecord "WIFI:guest-net" ∈
      (process_token ScannerState.init "WIFI:guest-net" 10
        (HttpResp.status 500 "") (HttpResp.timeout "t") "10:00:00").2.2 ∧
    (process_token ScannerState.init "WIFI:guest-net" 10
        (HttpResp.status 500 "") (HttpResp.timeout "t") "10:00:00").2.1 =
      some { valid := false, message := "Error API: 500",
             estado := "ERROR_ASISTENCIA", first_scan := some false,
             previous_scans := some [] } ∧
    "ERROR_ASISTENCIA" ≠ "REJECTED_LOCAL" := by
  decide

/-- C4 as amended: the two behaviours live in different programs. In
`qr_scanner.py`, `process_token` applies no local filter: every admitted
payload, locally rejectable or not, triggers the record request, so no
`REJECTED_LOCAL` outcome exists there. In `lector_qr.py`, a payload
matching `es_codigo_rechazado` makes the loop write the single byte `'0'`
to the actuator, and that script issues no remote call for any payload. -/
theorem C4_amended_no_local_filter_in_pipeline :
    (∀ (st : ScannerState) (token : String) (t : Int)
        (rr : HttpResp RecordJson) (vr : HttpResp ValidateJson)
        (now : String),
      ¬(token = st.last_scanned_token ∧
          t - st.last_scan_time < st.scan_cooldown) →
      Effect.callRecord token ∈ (process_token st token t rr vr now).2.2) ∧
    (∀ data : String, es_codigo_rechazado data = true →
      lector_frame_step data = [Effect.serialWrite '0']) ∧
    (∀ data tok : String,
      Effect.callRecord tok ∉ lector_frame_step data ∧
      Effect.callValidate tok ∉ lector_frame_step data) := by
  refine ⟨process_token_calls_record, ?_, ?_⟩
  · intro data h
    simp [lector_frame_step, h]
  · intro data tok
    unfold lector_frame_step
    split <;> simp

/-- Witness for C4 as amended: the rejected payload `WIFI:guest-net` is
still recorded remotely by `process_token`, while `lector_qr.py` writes
byte `'0'` for it and performs no remote call. -/
theorem C4_witness :
    (Effect.callRecord "WIFI:guest-net" ∈
      (process_token ScannerState.init "WIFI:guest-net" 10
        (HttpResp.status 500 "") (HttpResp.timeout "t") "10:00:00").2.2) ∧
    lector_frame_step "WIFI:guest-net" = [Effect.serialWrite '0'] ∧
    Effect.callRecord "WIFI:guest-net" ∉
      lector_frame_step "WIFI:guest-net" :=
  ⟨C4_amended_no_local_filter_in_pipeline.1 ScannerState.init
      "WIFI:guest-net" 10 (HttpResp.status 500 "") (HttpResp.timeout "t")
      "10:00:00" (by decide),
   C4_amended_no_local_filter_in_pipeline.2.1 "WIFI:guest-net" (by decide),
   (C4_amended_no_local_filter_in_pipeline.2.2 "WIFI:guest-net"
      "WIFI:guest-net").1⟩
